import Mathlib

/-!
Verification development for a personal expense tracker
(single Python source file `project2.py`).

The program stores income and expense transactions `(id, date, category,
amount, description)` and monthly budgets `(month, budget)` in a relational
store, and computes aggregated reports (income/expense split, balance,
budget-usage bands) and rule-based feedback messages (health feedback and
income/savings feedback).

This file gives a shallow embedding of the data model, the store
operations and the reporting/feedback computations, translated directly
from the source.  Monetary amounts are modelled as exact rationals `ℚ`;
tables are modelled as lists.  Messages are modelled as inductive types
whose constructors carry the numeric values the corresponding Python
format string interpolates.
-/

namespace ExpenseTracker

/-- A row of the `expenses` table, as loaded by `load_expenses`:
`id, date, category, amount, description`. -/
structure Transaction where
  id : ℕ
  date : String
  category : String
  amount : ℚ
  description : String
deriving DecidableEq, Repr

/-- `HEALTHY_CATEGORIES` from the source. -/
def HEALTHY_CATEGORIES : List String :=
  ["Groceries", "Healthcare", "Medicine", "Gym", "Fitness", "Sports"]

/-- `UNHEALTHY_CATEGORIES` from the source. -/
def UNHEALTHY_CATEGORIES : List String :=
  ["Fast Food", "Junk Food", "Alcohol", "Smoking", "Sweets"]

/-- `get_health_tag` from the source: healthy / unhealthy / neutral
(the explicit `"Food"` case also returns `"neutral"`). -/
def get_health_tag (cat : String) : String :=
  if cat ∈ HEALTHY_CATEGORIES then "healthy"
  else if cat ∈ UNHEALTHY_CATEGORIES then "unhealthy"
  else if cat = "Food" then "neutral"
  else "neutral"

/-- Python's `f"{x:.0f}"` formatting of a percentage: round to the nearest
integer, ties to the even integer (IEEE round-half-even, which is what the
`format` mini-language uses). -/
def pythonRound (q : ℚ) : ℤ :=
  if q - ⌊q⌋ < 1 / 2 then ⌊q⌋
  else if q - ⌊q⌋ > 1 / 2 then ⌊q⌋ + 1
  else if ⌊q⌋ % 2 = 0 then ⌊q⌋ else ⌊q⌋ + 1

/-- Month-level income total, as computed inline by the dashboard and the
feedback functions: sum of `Amount` over rows with `Category == "Income"`. -/
def incomeTotal (df : List Transaction) : ℚ :=
  ((df.filter (fun t => t.category = "Income")).map (fun t => t.amount)).sum

/-- Month-level expense total, as computed inline by the dashboard and
the feedback functions (`total_spent` in `generate_health_feedback`):
sum of `Amount` over rows with `Category != "Income"`. -/
def expenseTotal (df : List Transaction) : ℚ :=
  ((df.filter (fun t => t.category ≠ "Income")).map (fun t => t.amount)).sum

/-- `healthy_spent` in `generate_health_feedback`: sum of `Amount` over
the non-income rows whose category is tagged `"healthy"`. -/
def healthySpent (df : List Transaction) : ℚ :=
  (((df.filter (fun t => t.category ≠ "Income")).filter
      (fun t => get_health_tag t.category = "healthy")).map (fun t => t.amount)).sum

/-- `unhealthy_spent` in `generate_health_feedback`: sum of `Amount`
over the non-income rows whose category is tagged `"unhealthy"`. -/
def unhealthySpent (df : List Transaction) : ℚ :=
  (((df.filter (fun t => t.category ≠ "Income")).filter
      (fun t => get_health_tag t.category = "unhealthy")).map (fun t => t.amount)).sum

/-- `healthy_pct` in `generate_health_feedback`
(`0` when `total_spent` is not positive). -/
def healthyPct (df : List Transaction) : ℚ :=
  if expenseTotal df > 0 then healthySpent df / expenseTotal df * 100 else 0

/-- `unhealthy_pct` in `generate_health_feedback`
(`0` when `total_spent` is not positive). -/
def unhealthyPct (df : List Transaction) : ℚ :=
  if expenseTotal df > 0 then unhealthySpent df / expenseTotal df * 100 else 0

/-- The possible return values of `generate_health_feedback`; the numeric
argument is the rounded percentage interpolated into the message text. -/
inductive HealthFeedback where
  | noData
  | caution (unhealthyPct : ℤ)
  | encourage (healthyPct : ℤ)
  | mixed
deriving DecidableEq, Repr

/-- `generate_health_feedback` from the source: drop `"Income"` rows,
return the no-data message if nothing is left, otherwise compare the
unhealthy then the healthy spending percentage against 50. -/
def generate_health_feedback (month_df : List Transaction) : HealthFeedback :=
  let exp_df := month_df.filter (fun t => t.category ≠ "Income")
  if exp_df = [] then .noData
  else if unhealthyPct month_df ≥ 50 then .caution (pythonRound (unhealthyPct month_df))
  else if healthyPct month_df ≥ 50 then .encourage (pythonRound (healthyPct month_df))
  else .mixed

/-- The possible return values of `generate_income_feedback`; numeric
arguments are the values interpolated into the message text
(`overspend` carries the absolute currency amount `|savings|`,
the savings constructors carry the rounded `savings_pct`). -/
inductive IncomeFeedback where
  | noActivity
  | expensesNoIncome
  | incomeNoExpenses
  | overspend (amount : ℚ)
  | lowSavings (pct : ℤ)
  | goodSavings (pct : ℤ)
deriving DecidableEq, Repr

/-- `generate_income_feedback` from the source: the case table over
income and expense totals, then overspend / low-savings / good-savings
on `savings_pct`. -/
def generate_income_feedback (month_df : List Transaction) : IncomeFeedback :=
  let income := incomeTotal month_df
  let expense := expenseTotal month_df
  if income = 0 ∧ expense = 0 then .noActivity
  else if income = 0 ∧ expense > 0 then .expensesNoIncome
  else if income > 0 ∧ expense = 0 then .incomeNoExpenses
  else
    let savings := income - expense
    let savings_pct := if income > 0 then savings / income * 100 else 0
    if savings < 0 then .overspend |savings|
    else if savings_pct < 10 then .lowSavings (pythonRound savings_pct)
    else .goodSavings (pythonRound savings_pct)

/-- The income/expense split of §4.1, as the pair of the two inline sums
the dashboard computes. -/
def split_income_expense (df : List Transaction) : ℚ × ℚ :=
  (incomeTotal df, expenseTotal df)

/-- `balance = income - expense` as computed by the dashboard. -/
def dashboardBalance (df : List Transaction) : ℚ :=
  (split_income_expense df).1 - (split_income_expense df).2

/-- The savings percentage computed by `generate_income_feedback` when
`income > 0` (otherwise it sets the value to `0`). -/
def savingsPct (df : List Transaction) : ℚ :=
  if incomeTotal df > 0 then (incomeTotal df - expenseTotal df) / incomeTotal df * 100 else 0

/-- The alert band chosen by the dashboard's budget logic; constructors
carry the numeric values interpolated into the corresponding message
(`exceeded` carries the overspend magnitude `|remaining|`, the other
bands report the remaining amount). -/
inductive BudgetBand where
  | exceeded (overspend : ℚ)
  | warning (pct : ℤ) (remaining : ℚ)
  | halfUsed (remaining : ℚ)
  | withinBudget
deriving DecidableEq, Repr

/-- The dashboard's `BUDGET LOGIC` block: executed only when
`budget > 0`; computes `budget_pct` and `remaining` and picks the first
matching band among `>= 100`, `>= 80`, `>= 50`, otherwise the success
message.  Returns `none` when the block is skipped (`budget ≤ 0`). -/
def budgetReport (expense budget : ℚ) : Option (ℚ × ℚ × BudgetBand) :=
  if budget > 0 then
    let budget_pct := if budget > 0 then expense / budget * 100 else 0
    let remaining := budget - expense
    let band : BudgetBand :=
      if budget_pct ≥ 100 then .exceeded |remaining|
      else if budget_pct ≥ 80 then .warning (pythonRound budget_pct) remaining
      else if budget_pct ≥ 50 then .halfUsed remaining
      else .withinBudget
    some (budget_pct, remaining, band)
  else none

/-- A row of the `budget` table: `(month, budget)`; `month` is the
primary key. -/
abbrev BudgetRow := String × ℚ

/-- The dashboard's budget lookup: filter the budget table to the rows
whose `Month` equals the current month and take the first one, defaulting
to `0.0` when the filtered frame is empty. -/
def dashboardBudget (budget_df : List BudgetRow) (month : String) : ℚ :=
  match budget_df.filter (fun r => r.1 = month) with
  | [] => 0
  | r :: _ => r.2

/-- `save_budget_row` from the source: `INSERT OR REPLACE INTO
budget(month, budget)` with `month` the primary key, i.e. an upsert — if
a row with that month exists it is replaced, otherwise a new row is
appended. -/
def save_budget_row (table : List BudgetRow) (month : String) (budget_amount : ℚ) :
    List BudgetRow :=
  if table.any (fun r => r.1 = month) then
    table.map (fun r => if r.1 = month then (month, budget_amount) else r)
  else table ++ [(month, budget_amount)]

/-- Number of rows of the budget table whose month key is `month`. -/
def countMonth (table : List BudgetRow) (month : String) : ℕ :=
  (table.filter (fun r => r.1 = month)).length

/-- Budget-table states reachable through the program's budget writes:
the table starts empty (`CREATE TABLE IF NOT EXISTS`), grows only through
`save_budget_row`, and `clear_all_data` empties it. -/
inductive BudgetReachable : List BudgetRow → Prop where
  | empty : BudgetReachable []
  | save {t : List BudgetRow} (m : String) (a : ℚ) :
      BudgetReachable t → BudgetReachable (save_budget_row t m a)
  | clear {t : List BudgetRow} : BudgetReachable t → BudgetReachable []

/-- Modelled from the spec: the strict year-month format check performed
on the Set Budget input by the external date library
(`pd.Period(month_input, freq="M")` raising on invalid input).  An input
passes exactly when it is a normalized `"YYYY-MM"` string — four digits,
a dash, and a two-digit month between 01 and 12. -/
def parse_month_input (s : String) : Option String :=
  match s.toList with
  | [y1, y2, y3, y4, c, m1, m2] =>
    if y1.isDigit ∧ y2.isDigit ∧ y3.isDigit ∧ y4.isDigit ∧ c = '-' ∧
        m1.isDigit ∧ m2.isDigit ∧
        1 ≤ (m1.toNat - 48) * 10 + (m2.toNat - 48) ∧
        (m1.toNat - 48) * 10 + (m2.toNat - 48) ≤ 12
    then some s else none
  | _ => none

/-- Outcome reported to the caller by the Set Budget branch. -/
inductive SetBudgetResult where
  | validationError
  | saved (month : String)
deriving DecidableEq, Repr

/-- The Set Budget branch from the source: validate the month input; on
failure show a validation error and save nothing, on success call
`save_budget_row` with the normalized month. -/
def setBudgetAction (table : List BudgetRow) (month_input : String) (budget_amount : ℚ) :
    List BudgetRow × SetBudgetResult :=
  match parse_month_input month_input with
  | none => (table, .validationError)
  | some month => (save_budget_row table month budget_amount, .saved month)

/-- Modelled from the spec: the date parsing done by the external pandas
library in the Statistics branch (`pd.to_datetime(..., errors="coerce")`,
then truncation to a year-month period).  A stored date string parses
exactly when it is a strict `"YYYY-MM-DD"` calendar string (month 01–12,
day 01–31); its `MonthKey` is the `"YYYY-MM"` prefix.  Unparseable dates
coerce to `NaT` and the row is dropped by `dropna`. -/
def parse_month_from_date (s : String) : Option String :=
  match s.toList with
  | [y1, y2, y3, y4, c1, m1, m2, c2, d1, d2] =>
    if y1.isDigit ∧ y2.isDigit ∧ y3.isDigit ∧ y4.isDigit ∧ c1 = '-' ∧
        m1.isDigit ∧ m2.isDigit ∧ c2 = '-' ∧ d1.isDigit ∧ d2.isDigit ∧
        1 ≤ (m1.toNat - 48) * 10 + (m2.toNat - 48) ∧
        (m1.toNat - 48) * 10 + (m2.toNat - 48) ≤ 12 ∧
        1 ≤ (d1.toNat - 48) * 10 + (d2.toNat - 48) ∧
        (d1.toNat - 48) * 10 + (d2.toNat - 48) ≤ 31
    then some (String.mk [y1, y2, y3, y4, c1, m1, m2]) else none
  | _ => none

/-- Byte-wise lexicographic comparison of two strings by character code,
modelling SQLite's ordering of the text `date` column in
`ORDER BY date ASC`. -/
def lexLe : List Char → List Char → Bool
  | [], _ => true
  | _ :: _, [] => false
  | a :: as, b :: bs =>
    if a.toNat < b.toNat then true
    else if a.toNat > b.toNat then false
    else lexLe as bs

/-- The `ORDER BY date ASC, id ASC` ordering of `load_expenses`. -/
def dateIdLe (a b : Transaction) : Bool :=
  if a.date = b.date then a.id ≤ b.id else lexLe a.date.toList b.date.toList

/-- Insert a transaction into a list sorted by `dateIdLe`. -/
def insertByDateId (t : Transaction) : List Transaction → List Transaction
  | [] => [t]
  | x :: xs => if dateIdLe t x then t :: x :: xs else x :: insertByDateId t xs

/-- `load_expenses` from the source: `SELECT ... FROM expenses ORDER BY
date ASC, id ASC` — every stored row is returned, ordered by date then
id (modelled as an insertion sort of the stored rows). -/
def load_expenses (db : List Transaction) : List Transaction :=
  db.foldr insertByDateId []

/-- The Statistics / Smart Insights preprocessing: parse dates with
coercion and drop the rows whose date did not parse
(`df.dropna(subset=["Date"])`). -/
def validDatedRows (df : List Transaction) : List Transaction :=
  df.filter (fun t => (parse_month_from_date t.date).isSome)

/-- The month subset selected in the Statistics / Smart Insights branch:
rows of the valid-dated frame whose derived `Month` equals the selected
month. -/
def monthGroup (df : List Transaction) (month : String) : List Transaction :=
  (validDatedRows df).filter (fun t => parse_month_from_date t.date = some month)

/-- The `expenses` store with its autoincrement counter: `rows` is the
table contents, `nextId` the next store-assigned id. -/
structure Store where
  rows : List Transaction
  nextId : ℕ
deriving DecidableEq, Repr

/-- `save_expense` from the source: `INSERT INTO expenses(date, category,
amount, description)`; the id is store-assigned by autoincrement. -/
def save_expense (s : Store) (date_value category : String) (amount : ℚ)
    (description : String) : Store :=
  ⟨s.rows ++ [⟨s.nextId, date_value, category, amount, description⟩], s.nextId + 1⟩

/-- The Add Income branch: reject `income_amount ≤ 0` with a warning
(store untouched), otherwise save a transaction with category
`"Income"`. -/
def addIncomeAction (s : Store) (income_date : String) (income_amount : ℚ)
    (source : String) : Store :=
  if income_amount ≤ 0 then s
  else save_expense s income_date "Income" income_amount source

/-- The Add Expense branch: reject `amount ≤ 0` with a warning (store
untouched), otherwise save a transaction with the chosen category. -/
def addExpenseAction (s : Store) (exp_date category : String) (amount : ℚ)
    (description : String) : Store :=
  if amount ≤ 0 then s
  else save_expense s exp_date category amount description

/-- `delete_expense_by_id` from the source: `DELETE FROM expenses WHERE
id = ?`. -/
def delete_expense_by_id (s : Store) (row_id : ℕ) : Store :=
  ⟨s.rows.filter (fun t => t.id ≠ row_id), s.nextId⟩

/-- `clear_all_data` on the expenses table: `DELETE FROM expenses` (the
autoincrement counter is kept by `AUTOINCREMENT`). -/
def clearExpenses (s : Store) : Store :=
  ⟨[], s.nextId⟩

/-- Expense-store states reachable through the program's write paths:
the table starts empty, and is modified only by the Add Income and Add
Expense branches, the Delete Expense branch and `clear_all_data`. -/
inductive StoreReachable : Store → Prop where
  | empty : StoreReachable ⟨[], 1⟩
  | addIncome {s : Store} (d : String) (a : ℚ) (src : String) :
      StoreReachable s → StoreReachable (addIncomeAction s d a src)
  | addExpense {s : Store} (d cat : String) (a : ℚ) (desc : String) :
      StoreReachable s → StoreReachable (addExpenseAction s d cat a desc)
  | delete {s : Store} (i : ℕ) :
      StoreReachable s → StoreReachable (delete_expense_by_id s i)
  | clear {s : Store} : StoreReachable s → StoreReachable (clearExpenses s)

/-- The Delete Expense view: load the table, keep only non-income rows,
and offer their ids (`RowID`) in the selection box. -/
def deleteViewRowIds (db : List Transaction) : List ℕ :=
  (((load_expenses db).filter (fun t => t.category ≠ "Income")).map (fun t => t.id))

/-! ### Helper lemmas -/

theorem incomeTotal_cons (t : Transaction) (ts : List Transaction) :
    incomeTotal (t :: ts) = (if t.category = "Income" then t.amount else 0) + incomeTotal ts := by
  by_cases h : t.category = "Income" <;> simp [incomeTotal, List.filter_cons, h]

theorem expenseTotal_cons (t : Transaction) (ts : List Transaction) :
    expenseTotal (t :: ts) = (if t.category = "Income" then 0 else t.amount) + expenseTotal ts := by
  by_cases h : t.category = "Income" <;> simp [expenseTotal, List.filter_cons, h]

theorem mem_insertByDateId (a t : Transaction) (l : List Transaction) :
    a ∈ insertByDateId t l ↔ a = t ∨ a ∈ l := by
  induction l with
  | nil => simp [insertByDateId]
  | cons x xs ih =>
      unfold insertByDateId
      split
      · simp [List.mem_cons]
      · simp [List.mem_cons, ih, or_left_comm]

theorem mem_load_expenses (a : Transaction) (db : List Transaction) :
    a ∈ load_expenses db ↔ a ∈ db := by
  induction db with
  | nil => simp [load_expenses]
  | cons x xs ih =>
      show a ∈ insertByDateId x (load_expenses xs) ↔ _
      simp [mem_insertByDateId, ih, List.mem_cons]

theorem pythonRound_intCast (z : ℤ) : pythonRound (z : ℚ) = z := by
  simp [pythonRound, Int.floor_intCast]

theorem budget_replace_key (m : String) (a : ℚ) (r : BudgetRow) :
    ((if r.1 = m then (m, a) else r) : BudgetRow).1 = r.1 := by
  by_cases h : r.1 = m <;> simp [h]

theorem filter_map_replace (t : List BudgetRow) (m m' : String) (a : ℚ) :
    (t.map (fun r => if r.1 = m then (m, a) else r)).filter (fun r => r.1 = m')
      = (t.filter (fun r => r.1 = m')).map (fun r => if r.1 = m then (m, a) else r) := by
  induction t with
  | nil => rfl
  | cons x xs ih =>
      simp only [List.map_cons, List.filter_cons, budget_replace_key]
      by_cases hx : x.1 = m' <;> simp [hx, ih]

theorem any_false_filter_nil (t : List BudgetRow) (m : String)
    (h : ¬t.any (fun r => r.1 = m) = true) :
    t.filter (fun r => r.1 = m) = [] := by
  rw [List.filter_eq_nil_iff]
  intro r hr hrm
  exact h (List.any_eq_true.mpr ⟨r, hr, by simpa using hrm⟩)

theorem save_filter_self (t : List BudgetRow) (m : String) (a : ℚ)
    (h : countMonth t m ≤ 1) :
    (save_budget_row t m a).filter (fun r => r.1 = m) = [(m, a)] := by
  unfold save_budget_row
  by_cases hany : t.any (fun r => r.1 = m) = true
  · rw [if_pos hany, filter_map_replace]
    obtain ⟨x, hx, hpx⟩ := List.any_eq_true.mp hany
    have hxf : x ∈ t.filter (fun r => r.1 = m) := List.mem_filter.mpr ⟨hx, hpx⟩
    have hlen : (t.filter (fun r => r.1 = m)).length = 1 := by
      refine le_antisymm h ?_
      cases hf : t.filter (fun r => r.1 = m) with
      | nil => rw [hf] at hxf; simp at hxf
      | cons y ys => simp [hf]
    obtain ⟨y, hy⟩ := List.length_eq_one.mp hlen
    have hym : y.1 = m := by
      have hmem : y ∈ t.filter (fun r => r.1 = m) := hy ▸ List.mem_singleton_self y
      simpa using (List.mem_filter.mp hmem).2
    rw [hy]
    simp [hym]
  · rw [if_neg hany, List.filter_append, any_false_filter_nil t m hany]
    simp

theorem countMonth_save_le (t : List BudgetRow) (m : String) (a : ℚ) (m' : String)
    (h : countMonth t m' ≤ 1) :
    countMonth (save_budget_row t m a) m' ≤ 1 := by
  unfold countMonth at h ⊢
  unfold save_budget_row
  by_cases hany : t.any (fun r => r.1 = m) = true
  · rw [if_pos hany, filter_map_replace, List.length_map]
    exact h
  · rw [if_neg hany, List.filter_append]
    by_cases hm : (m, a).1 = m'
    · have hnil : t.filter (fun r => r.1 = m') = [] := by
        rw [← hm]
        exact any_false_filter_nil t m hany
      simp [hnil, List.filter_cons, hm]
      split <;> simp
    · simp [hm, h]

theorem reachable_atMostOne (t : List BudgetRow) (h : BudgetReachable t) (m : String) :
    countMonth t m ≤ 1 := by
  induction h with
  | empty => simp [countMonth]
  | save m' a hr ih => exact countMonth_save_le _ _ _ _ ih
  | clear hr ih => simp [countMonth]

theorem pythonRound_ten : pythonRound (10 : ℚ) = 10 := by
  rw [(by norm_num : (10 : ℚ) = ((10 : ℤ) : ℚ)), pythonRound_intCast]

/-! ### Claim theorems -/

/-- C7: for every transaction set, the income/expense split returns
`income_total` equal to the sum of amounts where `category == "Income"`
and `expense_total` equal to the sum of amounts of all other rows, with
both zero on empty input; and `balance` equals
`income_total - expense_total` exactly, including when negative. -/
theorem split_income_expense_correct (df : List Transaction) :
    (split_income_expense df).1
        = (df.map (fun t => if t.category = "Income" then t.amount else 0)).sum ∧
    (split_income_expense df).2
        = (df.map (fun t => if t.category = "Income" then 0 else t.amount)).sum ∧
    split_income_expense ([] : List Transaction) = (0, 0) ∧
    dashboardBalance df = (split_income_expense df).1 - (split_income_expense df).2 := by
  refine ⟨?_, ?_, rfl, rfl⟩
  · induction df with
    | nil => simp [split_income_expense, incomeTotal]
    | cons t ts ih =>
        simp only [split_income_expense] at ih ⊢
        rw [incomeTotal_cons, List.map_cons, List.sum_cons, ih]
  · induction df with
    | nil => simp [split_income_expense, expenseTotal]
    | cons t ts ih =>
        simp only [split_income_expense] at ih ⊢
        rw [expenseTotal_cons, List.map_cons, List.sum_cons, ih]

/-- C5: when the budget amount is zero (including the missing-budget
case, which the dashboard defaults to zero), the budget-usage block is
skipped entirely — `budgetReport` returns `none` and no percentage is
computed. -/
theorem budget_zero_skipped (e : ℚ) (budget_df : List BudgetRow) (m : String)
    (h : budget_df.filter (fun r => r.1 = m) = []) :
    budgetReport e 0 = none ∧
    dashboardBudget budget_df m = 0 ∧
    budgetReport e (dashboardBudget budget_df m) = none := by
  have h0 : dashboardBudget budget_df m = 0 := by
    unfold dashboardBudget
    rw [h]
  exact ⟨by norm_num [budgetReport], h0, by rw [h0]; norm_num [budgetReport]⟩

/-- Witness for C5 at a concrete zero-budget / missing-month input. -/
theorem budget_zero_skipped_witness :
    budgetReport 5 0 = none ∧
    dashboardBudget [("2025-01", 100)] "2025-02" = 0 ∧
    budgetReport 5 (dashboardBudget [("2025-01", 100)] "2025-02") = none :=
  budget_zero_skipped 5 [("2025-01", 100)] "2025-02" (by decide)

/-- C3: when the month input of the Set Budget branch fails the strict
year-month format check, a validation error is reported, no budget row
is saved, and the budget table (hence any prior entry for that month) is
unchanged. -/
theorem set_budget_invalid_month (table : List BudgetRow) (month_input : String) (amount : ℚ)
    (h : parse_month_input month_input = none) :
    setBudgetAction table month_input amount = (table, SetBudgetResult.validationError) := by
  unfold setBudgetAction
  rw [h]

/-- Witness for C3 at a concrete malformed month input. -/
theorem set_budget_invalid_month_witness :
    setBudgetAction [("2025-01", 50)] "not-a-month" 75
      = ([("2025-01", 50)], SetBudgetResult.validationError) :=
  set_budget_invalid_month [("2025-01", 50)] "not-a-month" 75 (by decide)

/-- C10: the Delete Expense view offers exactly the ids of the stored
non-income rows, so income transactions can never be deleted through
that view; and the underlying delete removes exactly the rows carrying
the given id, leaving every other row untouched. -/
theorem delete_view_only_expenses (db : List Transaction) (i : ℕ) (s : Store) :
    (i ∈ deleteViewRowIds db ↔ ∃ t, t ∈ db ∧ t.id = i ∧ t.category ≠ "Income") ∧
    (∀ t, t ∈ (delete_expense_by_id s i).rows ↔ t ∈ s.rows ∧ t.id ≠ i) := by
  constructor
  · unfold deleteViewRowIds
    simp only [List.mem_map, List.mem_filter, mem_load_expenses, decide_not,
      Bool.not_eq_eq_eq_not, Bool.not_true, decide_eq_false_iff_not]
    constructor
    · rintro ⟨t, ⟨hmem, hcat⟩, hid⟩
      exact ⟨t, hmem, hid, hcat⟩
    · rintro ⟨t, hmem, hid, hcat⟩
      exact ⟨t, ⟨hmem, hcat⟩, hid⟩
  · intro t
    simp [delete_expense_by_id, List.mem_filter]

/-- C2: for every expense total and positive budget, the budget-usage
block computes `percentage_used = expense / budget * 100` and selects
exactly one band, first match wins: `>= 100` exceeded (reporting the
overspend as `|remaining|`), else `>= 80` warning, else `>= 50`
half-used, else the on-track success message; the boundary values 100,
80 and 50 select exceeded, warning and half-used respectively. -/
theorem budget_band_selection (e b : ℚ) (hb : 0 < b) :
    (100 ≤ e / b * 100 →
      budgetReport e b = some (e / b * 100, b - e, BudgetBand.exceeded |b - e|)) ∧
    (80 ≤ e / b * 100 → e / b * 100 < 100 →
      budgetReport e b
        = some (e / b * 100, b - e, BudgetBand.warning (pythonRound (e / b * 100)) (b - e))) ∧
    (50 ≤ e / b * 100 → e / b * 100 < 80 →
      budgetReport e b = some (e / b * 100, b - e, BudgetBand.halfUsed (b - e))) ∧
    (e / b * 100 < 50 →
      budgetReport e b = some (e / b * 100, b - e, BudgetBand.withinBudget)) := by
  refine ⟨fun h1 => ?_, fun h1 h2 => ?_, fun h1 h2 => ?_, fun h1 => ?_⟩ <;>
    simp only [budgetReport, if_pos hb, ge_iff_le]
  · rw [if_pos h1]
  · rw [if_neg (not_le.mpr h2), if_pos h1]
  · have hn100 : ¬(100 : ℚ) ≤ e / b * 100 := not_le.mpr (h2.trans_le (by norm_num))
    rw [if_neg hn100, if_neg (not_le.mpr h2), if_pos h1]
  · have hn100 : ¬(100 : ℚ) ≤ e / b * 100 := not_le.mpr (h1.trans_le (by norm_num))
    have hn80 : ¬(80 : ℚ) ≤ e / b * 100 := not_le.mpr (h1.trans_le (by norm_num))
    rw [if_neg hn100, if_neg hn80, if_neg (not_le.mpr h1)]

/-- Witness for C2 at the three boundary percentages 100, 80 and 50. -/
theorem budget_band_selection_witness :
    budgetReport 100 100
      = some (100 / 100 * 100, 100 - 100, BudgetBand.exceeded |(100 : ℚ) - 100|) ∧
    budgetReport 80 100
      = some (80 / 100 * 100, 100 - 80,
          BudgetBand.warning (pythonRound (80 / 100 * 100)) (100 - 80)) ∧
    budgetReport 50 100
      = some (50 / 100 * 100, 100 - 50, BudgetBand.halfUsed (100 - 50)) :=
  ⟨(budget_band_selection 100 100 (by norm_num)).1 (by norm_num),
   (budget_band_selection 80 100 (by norm_num)).2.1 (by norm_num) (by norm_num),
   (budget_band_selection 50 100 (by norm_num)).2.2.1 (by norm_num) (by norm_num)⟩

/-- C1 counterexample: at income=1000, expense=900 the savings
percentage is exactly 10, and `generate_income_feedback` returns the
good-savings message, not the low-savings message the claim asserts for
the boundary. -/
theorem income_feedback_boundary_counterexample :
    generate_income_feedback
        [⟨1, "2025-01-05", "Income", 1000, "salary"⟩,
         ⟨2, "2025-01-10", "Food", 900, "meals"⟩]
      = IncomeFeedback.goodSavings 10 ∧
    generate_income_feedback
        [⟨1, "2025-01-05", "Income", 1000, "salary"⟩,
         ⟨2, "2025-01-10", "Food", 900, "meals"⟩]
      ≠ IncomeFeedback.lowSavings 10 := by
  have hI : incomeTotal
      [⟨1, "2025-01-05", "Income", 1000, "salary"⟩,
       ⟨2, "2025-01-10", "Food", 900, "meals"⟩] = 1000 := by
    simp [incomeTotal, List.filter_cons]
  have hE : expenseTotal
      [⟨1, "2025-01-05", "Income", 1000, "salary"⟩,
       ⟨2, "2025-01-10", "Food", 900, "meals"⟩] = 900 := by
    simp [expenseTotal, List.filter_cons]
  have h : generate_income_feedback
      [⟨1, "2025-01-05", "Income", 1000, "salary"⟩,
       ⟨2, "2025-01-10", "Food", 900, "meals"⟩]
      = IncomeFeedback.goodSavings 10 := by
    simp only [generate_income_feedback, hI, hE]
    have harg : ((1000 : ℚ) - 900) / 1000 * 100 = 10 := by norm_num
    norm_num [harg, pythonRound_ten]
  exact ⟨h, by rw [h]; simp⟩

/-- C1 (amended): with positive income, positive expense and
non-negative savings, the low-savings message (citing the rounded
savings percentage) is returned exactly when `savings_pct < 10`; at the
boundary `savings_pct = 10` the good-savings branch is selected, not the
low-savings branch. -/
theorem income_feedback_low_savings_iff (df : List Transaction)
    (hi : 0 < incomeTotal df) (he : 0 < expenseTotal df)
    (hs : 0 ≤ incomeTotal df - expenseTotal df) :
    (generate_income_feedback df = IncomeFeedback.lowSavings (pythonRound (savingsPct df))
        ↔ savingsPct df < 10) ∧
    (savingsPct df = 10 → generate_income_feedback df = IncomeFeedback.goodSavings 10) := by
  have h1 : ¬(incomeTotal df = 0 ∧ expenseTotal df = 0) := fun ⟨h, _⟩ => absurd h hi.ne'
  have h2 : ¬(incomeTotal df = 0 ∧ expenseTotal df > 0) := fun ⟨h, _⟩ => absurd h hi.ne'
  have h3 : ¬(incomeTotal df > 0 ∧ expenseTotal df = 0) := fun ⟨_, h⟩ => absurd h he.ne'
  have hns : ¬(incomeTotal df - expenseTotal df < 0) := not_lt.mpr hs
  have hspct : savingsPct df = (incomeTotal df - expenseTotal df) / incomeTotal df * 100 := by
    rw [savingsPct, if_pos hi]
  simp only [generate_income_feedback, if_neg h1, if_neg h2, if_neg h3, if_pos hi, if_neg hns,
    ← hspct]
  constructor
  · by_cases hc : savingsPct df < 10
    · rw [if_pos hc]
      simp [hc]
    · rw [if_neg hc]
      simp [hc]
  · intro h10
    rw [h10]
    have : ¬((10 : ℚ) < 10) := lt_irrefl 10
    rw [if_neg this]
    rw [pythonRound_ten]

/-- Witness for C1 (amended) at income=1000, expense=950
(savings percentage 5, below the boundary). -/
theorem income_feedback_low_savings_iff_witness :
    (generate_income_feedback
        [⟨1, "2025-01-05", "Income", 1000, "salary"⟩, ⟨2, "2025-01-10", "Food", 950, "meals"⟩]
      = IncomeFeedback.lowSavings (pythonRound (savingsPct
          [⟨1, "2025-01-05", "Income", 1000, "salary"⟩, ⟨2, "2025-01-10", "Food", 950, "meals"⟩]))
      ↔ savingsPct
          [⟨1, "2025-01-05", "Income", 1000, "salary"⟩, ⟨2, "2025-01-10", "Food", 950, "meals"⟩]
        < 10) ∧
    (savingsPct
        [⟨1, "2025-01-05", "Income", 1000, "salary"⟩, ⟨2, "2025-01-10", "Food", 950, "meals"⟩]
      = 10 →
      generate_income_feedback
        [⟨1, "2025-01-05", "Income", 1000, "salary"⟩, ⟨2, "2025-01-10", "Food", 950, "meals"⟩]
      = IncomeFeedback.goodSavings 10) := by
  have hI : incomeTotal
      [⟨1, "2025-01-05", "Income", 1000, "salary"⟩, ⟨2, "2025-01-10", "Food", 950, "meals"⟩]
      = 1000 := by
    simp [incomeTotal, List.filter_cons]
  have hE : expenseTotal
      [⟨1, "2025-01-05", "Income", 1000, "salary"⟩, ⟨2, "2025-01-10", "Food", 950, "meals"⟩]
      = 950 := by
    simp [expenseTotal, List.filter_cons]
  exact income_feedback_low_savings_iff _
    (by rw [hI]; norm_num) (by rw [hE]; norm_num) (by rw [hI, hE]; norm_num)

/-- C4: `generate_health_feedback` returns exactly one message, first
match wins: a fixed no-data message when the expense subset is empty;
else the cautionary message citing the rounded unhealthy percentage when
`unhealthy_pct >= 50`; else the encouraging message citing the rounded
healthy percentage when `healthy_pct >= 50`; else the neutral mixed
message. -/
theorem health_feedback_decision (df : List Transaction) :
    (df.filter (fun t => t.category ≠ "Income") = [] →
      generate_health_feedback df = HealthFeedback.noData) ∧
    (df.filter (fun t => t.category ≠ "Income") ≠ [] → unhealthyPct df ≥ 50 →
      generate_health_feedback df = HealthFeedback.caution (pythonRound (unhealthyPct df))) ∧
    (df.filter (fun t => t.category ≠ "Income") ≠ [] → unhealthyPct df < 50 →
      healthyPct df ≥ 50 →
      generate_health_feedback df = HealthFeedback.encourage (pythonRound (healthyPct df))) ∧
    (df.filter (fun t => t.category ≠ "Income") ≠ [] → unhealthyPct df < 50 →
      healthyPct df < 50 → generate_health_feedback df = HealthFeedback.mixed) := by
  refine ⟨fun h => ?_, fun h h1 => ?_, fun h h1 h2 => ?_, fun h h1 h2 => ?_⟩ <;>
    simp only [generate_health_feedback]
  · rw [if_pos h]
  · rw [if_neg h, if_pos h1]
  · rw [if_neg h, if_neg (not_le.mpr h1), if_pos h2]
  · rw [if_neg h, if_neg (not_le.mpr h1), if_neg (not_le.mpr h2)]

/-- Witness for C4: a pure-income month yields the no-data message, and
a month spent entirely on fast food yields the cautionary message. -/
theorem health_feedback_decision_witness :
    generate_health_feedback [⟨1, "2025-01-01", "Income", 1000, "pay"⟩]
      = HealthFeedback.noData ∧
    generate_health_feedback [⟨2, "2025-01-02", "Fast Food", 100, "burger"⟩]
      = HealthFeedback.caution
          (pythonRound (unhealthyPct [⟨2, "2025-01-02", "Fast Food", 100, "burger"⟩])) :=
  ⟨(health_feedback_decision _).1 (by decide),
   (health_feedback_decision _).2.1 (by decide)
     (by
       have h1 : expenseTotal [⟨2, "2025-01-02", "Fast Food", 100, "burger"⟩] = 100 := by
         simp [expenseTotal, List.filter_cons]
       have h2 : unhealthySpent [⟨2, "2025-01-02", "Fast Food", 100, "burger"⟩] = 100 := by
         simp [unhealthySpent, get_health_tag, HEALTHY_CATEGORIES, UNHEALTHY_CATEGORIES,
           List.filter_cons]
       rw [ge_iff_le, unhealthyPct, h1, h2]
       norm_num)⟩

/-- C6: a stored transaction whose date is unparseable appears in no
month group of the Statistics / Smart Insights pipeline, but still
appears in the raw list returned by `load_expenses` — it is omitted from
date-dependent views, not deleted. -/
theorem unparseable_date_omitted (db : List Transaction) (t : Transaction) (m : String)
    (ht : t ∈ db) (hbad : parse_month_from_date t.date = none) :
    t ∉ monthGroup (load_expenses db) m ∧ t ∈ load_expenses db := by
  constructor
  · intro hmem
    unfold monthGroup at hmem
    have h2 := (List.mem_filter.mp hmem).2
    rw [hbad] at h2
    simp at h2
  · exact (mem_load_expenses t db).mpr ht

/-- Witness for C6 at a concrete store holding one unparseable-date row
and one valid row. -/
theorem unparseable_date_omitted_witness :
    ⟨1, "13/01/2025", "Food", 50, "x"⟩
        ∉ monthGroup (load_expenses
            [⟨1, "13/01/2025", "Food", 50, "x"⟩, ⟨2, "2025-01-02", "Income", 10, "y"⟩])
          "2025-01" ∧
    (⟨1, "13/01/2025", "Food", 50, "x"⟩ : Transaction)
        ∈ load_expenses
            [⟨1, "13/01/2025", "Food", 50, "x"⟩, ⟨2, "2025-01-02", "Income", 10, "y"⟩] :=
  unparseable_date_omitted _ _ _ (by simp) (by decide)

/-- C9: every transaction persisted through the Add Income / Add Expense
write paths has a strictly positive amount: both paths reject
`amount ≤ 0` without touching the store, so every reachable store state
satisfies the invariant `amount > 0` — strictly stronger than the
spec's `amount ≥ 0`. -/
theorem positive_amount_invariant (s : Store) (h : StoreReachable s) :
    (∀ t ∈ s.rows, 0 < t.amount) ∧
    (∀ s' d a src, a ≤ 0 → addIncomeAction s' d a src = s') ∧
    (∀ s' d cat a desc, a ≤ 0 → addExpenseAction s' d cat a desc = s') := by
  refine ⟨?_, ?_, ?_⟩
  · induction h with
    | empty => intro t ht; simp at ht
    | addIncome d a src hr ih =>
        intro t ht
        unfold addIncomeAction at ht
        by_cases ha : a ≤ 0
        · rw [if_pos ha] at ht
          exact ih t ht
        · rw [if_neg ha] at ht
          unfold save_expense at ht
          rcases List.mem_append.mp ht with h1 | h1
          · exact ih t h1
          · simp only [List.mem_singleton] at h1
            subst h1
            exact not_le.mp ha
    | addExpense d cat a desc hr ih =>
        intro t ht
        unfold addExpenseAction at ht
        by_cases ha : a ≤ 0
        · rw [if_pos ha] at ht
          exact ih t ht
        · rw [if_neg ha] at ht
          unfold save_expense at ht
          rcases List.mem_append.mp ht with h1 | h1
          · exact ih t h1
          · simp only [List.mem_singleton] at h1
            subst h1
            exact not_le.mp ha
    | delete i hr ih =>
        intro t ht
        unfold delete_expense_by_id at ht
        exact ih t (List.mem_filter.mp ht).1
    | clear hr ih =>
        intro t ht
        simp [clearExpenses] at ht
  · intro s' d a src ha
    unfold addIncomeAction
    rw [if_pos ha]
  · intro s' d cat a desc ha
    unfold addExpenseAction
    rw [if_pos ha]

/-- Witness for C9: the row written by a successful Add Income has
positive amount, and an Add Expense with amount 0 leaves the store
unchanged. -/
theorem positive_amount_invariant_witness :
    (0 : ℚ) < (⟨1, "2025-01-01", "Income", 500, "job"⟩ : Transaction).amount ∧
    addExpenseAction ⟨[], 7⟩ "2025-02-02" "Food" 0 "zero" = ⟨[], 7⟩ :=
  ⟨(positive_amount_invariant _
      (StoreReachable.addIncome "2025-01-01" 500 "job" StoreReachable.empty)).1
      ⟨1, "2025-01-01", "Income", 500, "job"⟩
      (by norm_num [addIncomeAction, save_expense]),
   (positive_amount_invariant _ StoreReachable.empty).2.2
      ⟨[], 7⟩ "2025-02-02" "Food" 0 "zero" (by norm_num)⟩

/-- C8: in every reachable budget-table state there is at most one entry
per month, and after two budget-set calls for the same month the table
holds exactly one entry for that month, carrying the second call's
amount (which is what the dashboard lookup then returns). -/
theorem budget_upsert_second_wins (t : List BudgetRow) (m : String) (a1 a2 : ℚ)
    (h : BudgetReachable t) :
    (∀ m', countMonth t m' ≤ 1) ∧
    (save_budget_row (save_budget_row t m a1) m a2).filter (fun r => r.1 = m) = [(m, a2)] ∧
    dashboardBudget (save_budget_row (save_budget_row t m a1) m a2) m = a2 := by
  have inv : ∀ m', countMonth t m' ≤ 1 := fun m' => reachable_atMostOne t h m'
  have h1 : countMonth (save_budget_row t m a1) m ≤ 1 := countMonth_save_le _ _ _ _ (inv m)
  have h2 := save_filter_self (save_budget_row t m a1) m a2 h1
  refine ⟨inv, h2, ?_⟩
  unfold dashboardBudget
  rw [h2]

/-- Witness for C8: two saves for the same month starting from the empty
table leave a single row holding the second amount. -/
theorem budget_upsert_second_wins_witness :
    (∀ m', countMonth [] m' ≤ 1) ∧
    (save_budget_row (save_budget_row [] "2025-03" 100) "2025-03" 250).filter
        (fun r => r.1 = "2025-03") = [("2025-03", 250)] ∧
    dashboardBudget (save_budget_row (save_budget_row [] "2025-03" 100) "2025-03" 250)
        "2025-03" = 250 :=
  budget_upsert_second_wins [] "2025-03" 100 250 BudgetReachable.empty

end ExpenseTracker
